import Mathlib

/-
Shallow embedding of the machine running-cost engine from
`machine_cost_app.py` (and the pneumatic-only variant `pneumatic_cost_app.py`).

Numeric inputs are embedded as rationals (`ℚ`): every guard in the source is
then a decidable comparison.  The only irrational constant in the source is
`math.pi` in the cylinder-volume formula, so the pneumatic-actuation pipeline
and all aggregates live in `ℝ` with `Real.pi`; the waste and servo pipelines
are π-free and stay in `ℚ`, fully computable.
-/

namespace MachineCost

/-- One row of the cylinder table: `{"Quantity", "Bore (mm)", "Stroke (mm)"}`. -/
structure CylinderSpec where
  quantity : ℚ
  bore_mm : ℚ
  stroke_mm : ℚ

/-- One row of the servo table:
`{"Quantity", "Motor Power (Watts)", "Avg. Power Utilization (%)"}`. -/
structure ServoSpec where
  quantity : ℚ
  power_watts : ℚ
  utilization_pct : ℚ

/-- The two values of the `dump_trigger_method` radio control in
`machine_cost_app.py`: "Based on random safety events per hour" and
"After every machine cycle". -/
inductive TriggerMode where
  | RandomEventsPerHour : TriggerMode
  | AfterEveryCycle : TriggerMode
deriving DecidableEq

/-- The safety-dump inputs of `machine_cost_app.py`: the `dump_air` toggle,
`receiver_liters`, the trigger radio and `dumps_per_hour`. -/
structure SafetyDumpConfig where
  enabled : Bool
  receiver_volume_liters : ℚ
  trigger_mode : TriggerMode
  dumps_per_hour : ℚ

/-- The sidebar / global inputs shared by all calculators:
`cycle_rate`, `pressure_bar`, `compressor_efficiency`, `hours_per_day`,
`days_per_week`, `electricity_cost`. -/
structure GlobalParameters where
  cycle_rate_per_min : ℚ
  pressure_bar : ℚ
  compressor_efficiency_kwh_per_m3 : ℚ
  hours_per_day : ℚ
  days_per_week : ℚ
  electricity_cost_per_kwh : ℚ

/-! ## 1. Pneumatic actuation (machine_cost_app.py lines 80-92) -/

/-- `cylinder_volume_m3 = math.pi * ((bore_m/2)**2) * stroke_m` with
`bore_m = bore_mm/1000`, `stroke_m = stroke_mm/1000`. -/
noncomputable def cylinder_volume_m3 (c : CylinderSpec) : ℝ :=
  Real.pi * (((c.bore_mm / 1000 : ℚ) : ℝ) / 2) ^ 2 * ((c.stroke_mm / 1000 : ℚ) : ℝ)

/-- `free_air_per_cycle = (2 * cylinder_volume_m3) * (pressure_bar + 1)`. -/
noncomputable def free_air_per_cycle (g : GlobalParameters) (c : CylinderSpec) : ℝ :=
  2 * cylinder_volume_m3 c * ((g.pressure_bar : ℝ) + 1)

/-- Contribution of one cylinder row to `total_free_air_per_cycle_m3`:
the body of the loop guarded by `if qty > 0 and bore_mm > 0 and stroke_mm > 0`,
accumulating `free_air_per_cycle * qty`; an invalid row adds nothing. -/
noncomputable def cylinder_row_air (g : GlobalParameters) (c : CylinderSpec) : ℝ :=
  if 0 < c.quantity ∧ 0 < c.bore_mm ∧ 0 < c.stroke_mm then
    free_air_per_cycle g c * (c.quantity : ℝ)
  else 0

/-- The accumulation loop: `total_free_air_per_cycle_m3 = 0.0` then
`+= free_air_per_cycle * qty` for each valid row. -/
noncomputable def total_free_air_per_cycle_m3
    (g : GlobalParameters) (rows : List CylinderSpec) : ℝ :=
  rows.foldl (fun acc c => acc + cylinder_row_air g c) 0

/-- `total_actuation_air_per_hour_m3 = total_free_air_per_cycle_m3 * cycle_rate * 60`. -/
noncomputable def total_actuation_air_per_hour_m3
    (g : GlobalParameters) (rows : List CylinderSpec) : ℝ :=
  total_free_air_per_cycle_m3 g rows * (g.cycle_rate_per_min : ℝ) * 60

/-- `kwh_per_hour_pneumatic_actuation = total_actuation_air_per_hour_m3 * compressor_efficiency`. -/
noncomputable def kwh_per_hour_pneumatic_actuation
    (g : GlobalParameters) (rows : List CylinderSpec) : ℝ :=
  total_actuation_air_per_hour_m3 g rows * (g.compressor_efficiency_kwh_per_m3 : ℝ)

/-- `cost_per_hour_pneumatic_actuation = kwh_per_hour_pneumatic_actuation * electricity_cost`. -/
noncomputable def cost_per_hour_pneumatic_actuation
    (g : GlobalParameters) (rows : List CylinderSpec) : ℝ :=
  kwh_per_hour_pneumatic_actuation g rows * (g.electricity_cost_per_kwh : ℝ)

/-! ## 2. Pneumatic waste / safety dump (machine_cost_app.py lines 94-105) -/

/-- `free_air_per_dump_m3 = (receiver_liters / 1000) * (pressure_bar + 1)`. -/
def free_air_per_dump_m3 (g : GlobalParameters) (d : SafetyDumpConfig) : ℚ :=
  d.receiver_volume_liters / 1000 * (g.pressure_bar + 1)

/-- `dumps_per_hour_from_cycles = cycle_rate * 60`. -/
def dumps_per_hour_from_cycles (g : GlobalParameters) : ℚ :=
  g.cycle_rate_per_min * 60

/-- The branch on `dump_trigger_method`: multiply `free_air_per_dump_m3` by
`dumps_per_hour` for random events, by `dumps_per_hour_from_cycles` when the
dump fires after every cycle. -/
def total_waste_air_per_hour_m3 (g : GlobalParameters) (d : SafetyDumpConfig) : ℚ :=
  match d.trigger_mode with
  | TriggerMode.RandomEventsPerHour => free_air_per_dump_m3 g d * d.dumps_per_hour
  | TriggerMode.AfterEveryCycle => free_air_per_dump_m3 g d * dumps_per_hour_from_cycles g

/-- `cost_per_hour_pneumatic_waste = 0`, replaced under
`if dump_air and receiver_liters > 0` by
`total_waste_air_per_hour_m3 * compressor_efficiency * electricity_cost`. -/
def cost_per_hour_pneumatic_waste (g : GlobalParameters) (d : SafetyDumpConfig) : ℚ :=
  if d.enabled = true ∧ 0 < d.receiver_volume_liters then
    total_waste_air_per_hour_m3 g d * g.compressor_efficiency_kwh_per_m3 *
      g.electricity_cost_per_kwh
  else 0

/-! ## 3. Servos (machine_cost_app.py lines 107-117) -/

/-- `avg_power_per_motor_w = power_w * (util_pct / 100)`. -/
def avg_power_per_motor_w (s : ServoSpec) : ℚ :=
  s.power_watts * (s.utilization_pct / 100)

/-- Contribution of one servo row to `total_servo_power_watts`: the loop body
guarded by `if qty > 0 and power_w > 0 and util_pct >= 0`, accumulating
`avg_power_per_motor_w * qty`. -/
def servo_row_power (s : ServoSpec) : ℚ :=
  if 0 < s.quantity ∧ 0 < s.power_watts ∧ 0 ≤ s.utilization_pct then
    avg_power_per_motor_w s * s.quantity
  else 0

/-- The accumulation loop: `total_servo_power_watts = 0` then
`+= avg_power_per_motor_w * qty` for each valid row. -/
def total_servo_power_watts (rows : List ServoSpec) : ℚ :=
  rows.foldl (fun acc s => acc + servo_row_power s) 0

/-- `kwh_per_hour_servo = total_servo_power_watts / 1000`. -/
def kwh_per_hour_servo (rows : List ServoSpec) : ℚ :=
  total_servo_power_watts rows / 1000

/-- `cost_per_hour_servo = kwh_per_hour_servo * electricity_cost`. -/
def cost_per_hour_servo (g : GlobalParameters) (rows : List ServoSpec) : ℚ :=
  kwh_per_hour_servo rows * g.electricity_cost_per_kwh

/-! ## 4. Totals (machine_cost_app.py lines 120-123) and breakdown (161-167) -/

/-- `cost_per_hour_total = actuation + waste + servo`. -/
noncomputable def cost_per_hour_total (g : GlobalParameters)
    (cyl : List CylinderSpec) (srv : List ServoSpec) (d : SafetyDumpConfig) : ℝ :=
  cost_per_hour_pneumatic_actuation g cyl + (cost_per_hour_pneumatic_waste g d : ℝ) +
    (cost_per_hour_servo g srv : ℝ)

/-- `cost_per_day_total = cost_per_hour_total * hours_per_day`. -/
noncomputable def cost_per_day_total (g : GlobalParameters)
    (cyl : List CylinderSpec) (srv : List ServoSpec) (d : SafetyDumpConfig) : ℝ :=
  cost_per_hour_total g cyl srv d * (g.hours_per_day : ℝ)

/-- `cost_per_week_total = cost_per_day_total * days_per_week`. -/
noncomputable def cost_per_week_total (g : GlobalParameters)
    (cyl : List CylinderSpec) (srv : List ServoSpec) (d : SafetyDumpConfig) : ℝ :=
  cost_per_day_total g cyl srv d * (g.days_per_week : ℝ)

/-- `cost_per_year_total = cost_per_week_total * 52`. -/
noncomputable def cost_per_year_total (g : GlobalParameters)
    (cyl : List CylinderSpec) (srv : List ServoSpec) (d : SafetyDumpConfig) : ℝ :=
  cost_per_week_total g cyl srv d * 52

/-- One column of `breakdown_data`: a subsystem's hourly cost scaled to the
four periods, `[c, c*hours_per_day, c*hours_per_day*days_per_week,
c*hours_per_day*days_per_week*52]`. -/
noncomputable def breakdown_row (g : GlobalParameters) (hourly : ℝ) : List ℝ :=
  [hourly, hourly * (g.hours_per_day : ℝ),
   hourly * (g.hours_per_day : ℝ) * (g.days_per_week : ℝ),
   hourly * (g.hours_per_day : ℝ) * (g.days_per_week : ℝ) * 52]

/-- The `Total` column of `breakdown_data`:
`[cost_per_hour_total, cost_per_day_total, cost_per_week_total, cost_per_year_total]`. -/
noncomputable def breakdown_total_row (g : GlobalParameters)
    (cyl : List CylinderSpec) (srv : List ServoSpec) (d : SafetyDumpConfig) : List ℝ :=
  [cost_per_hour_total g cyl srv d, cost_per_day_total g cyl srv d,
   cost_per_week_total g cyl srv d, cost_per_year_total g cyl srv d]

/-- The output record of one engine invocation (spec section 3, CostBreakdown). -/
structure CostBreakdown where
  pneumatic_actuation_hourly : ℝ
  pneumatic_waste_hourly : ℝ
  servo_hourly : ℝ
  total_hourly : ℝ
  total_daily : ℝ
  total_weekly : ℝ
  total_annual : ℝ

/-- The whole engine, `compute(cylinder_specs, servo_specs, safety_dump_config,
global_parameters) -> CostBreakdown` (spec section 6), assembled from the
calculations of machine_cost_app.py lines 80-123. -/
noncomputable def compute (g : GlobalParameters) (cyl : List CylinderSpec)
    (srv : List ServoSpec) (d : SafetyDumpConfig) : CostBreakdown :=
  { pneumatic_actuation_hourly := cost_per_hour_pneumatic_actuation g cyl
    pneumatic_waste_hourly := (cost_per_hour_pneumatic_waste g d : ℝ)
    servo_hourly := (cost_per_hour_servo g srv : ℝ)
    total_hourly := cost_per_hour_total g cyl srv d
    total_daily := cost_per_day_total g cyl srv d
    total_weekly := cost_per_week_total g cyl srv d
    total_annual := cost_per_year_total g cyl srv d }

/-! ## Helper lemmas -/

/-- Folding `+ f a` from `x` over a list adds the sum of the mapped list. -/
lemma foldl_add_eq {α β : Type} [AddCommMonoid β] (f : α → β) :
    ∀ (l : List α) (x : β), List.foldl (fun acc a => acc + f a) x l = x + (l.map f).sum := by
  intro l
  induction l with
  | nil => intro x; simp
  | cons a t ih => intro x; simp [ih, add_assoc]

/-- The actuation accumulator is the sum of the per-row contributions. -/
lemma total_free_air_eq_sum (g : GlobalParameters) (rows : List CylinderSpec) :
    total_free_air_per_cycle_m3 g rows = (rows.map (cylinder_row_air g)).sum := by
  simpa using foldl_add_eq (cylinder_row_air g) rows 0

/-- The servo accumulator is the sum of the per-row contributions. -/
lemma total_servo_power_eq_sum (rows : List ServoSpec) :
    total_servo_power_watts rows = (rows.map servo_row_power).sum := by
  simpa using foldl_add_eq servo_row_power rows 0

/-- Pressure-independent part of one cylinder row: `2 * volume * quantity` for
a valid row, `0` otherwise. -/
noncomputable def cylinder_row_base_air (c : CylinderSpec) : ℝ :=
  if 0 < c.quantity ∧ 0 < c.bore_mm ∧ 0 < c.stroke_mm then
    2 * cylinder_volume_m3 c * (c.quantity : ℝ)
  else 0

/-- A row's contribution factors as its pressure-free base times `pressure + 1`. -/
lemma cylinder_row_air_factor (g : GlobalParameters) (c : CylinderSpec) :
    cylinder_row_air g c = cylinder_row_base_air c * ((g.pressure_bar : ℝ) + 1) := by
  unfold cylinder_row_air cylinder_row_base_air free_air_per_cycle
  split
  · ring
  · ring

/-- The pressure-free base of a row is nonnegative. -/
lemma cylinder_row_base_air_nonneg (c : CylinderSpec) : 0 ≤ cylinder_row_base_air c := by
  unfold cylinder_row_base_air cylinder_volume_m3
  split
  · rename_i h
    have hq : (0 : ℝ) ≤ (c.quantity : ℚ) := by exact_mod_cast le_of_lt h.1
    have hs : (0 : ℝ) ≤ ((c.stroke_mm / 1000 : ℚ) : ℝ) := by
      have : (0 : ℚ) ≤ c.stroke_mm / 1000 := div_nonneg (le_of_lt h.2.2) (by norm_num)
      exact_mod_cast this
    have hv : (0 : ℝ) ≤ Real.pi * (((c.bore_mm / 1000 : ℚ) : ℝ) / 2) ^ 2 *
        ((c.stroke_mm / 1000 : ℚ) : ℝ) :=
      mul_nonneg (mul_nonneg Real.pi_pos.le (sq_nonneg _)) hs
    nlinarith
  · exact le_refl 0

/-! ## Claim theorems -/

/-- C5: aggregation exactness — for every input, `cost_per_hour_total` is the
sum of the three subsystem hourly costs, `cost_per_day_total` is the hourly
total times `hours_per_day`, `cost_per_week_total` is the daily total times
`days_per_week`, and `cost_per_year_total` is the weekly total times 52,
which equals `hourly × hours_per_day × days_per_week × 52`. -/
theorem C5_aggregation_exact (g : GlobalParameters) (cyl : List CylinderSpec)
    (srv : List ServoSpec) (d : SafetyDumpConfig) :
    cost_per_hour_total g cyl srv d =
        cost_per_hour_pneumatic_actuation g cyl + (cost_per_hour_pneumatic_waste g d : ℝ) +
          (cost_per_hour_servo g srv : ℝ) ∧
    cost_per_day_total g cyl srv d = cost_per_hour_total g cyl srv d * (g.hours_per_day : ℝ) ∧
    cost_per_week_total g cyl srv d =
        cost_per_day_total g cyl srv d * (g.days_per_week : ℝ) ∧
    cost_per_year_total g cyl srv d = cost_per_week_total g cyl srv d * 52 ∧
    cost_per_year_total g cyl srv d =
        cost_per_hour_total g cyl srv d * (g.hours_per_day : ℝ) * (g.days_per_week : ℝ) * 52 := by
  refine ⟨rfl, rfl, rfl, rfl, ?_⟩
  unfold cost_per_year_total cost_per_week_total cost_per_day_total
  ring

/-- C6: per-subsystem breakdown consistency — at each of the four periods of
`breakdown_data`, the pointwise sum of the three per-subsystem rows (each
scaled by the same `hours_per_day` / `days_per_week` / 52 multipliers) equals
the `Total` row exactly. -/
theorem C6_breakdown_consistent (g : GlobalParameters) (cyl : List CylinderSpec)
    (srv : List ServoSpec) (d : SafetyDumpConfig) :
    List.zipWith (fun a b => a + b)
        (List.zipWith (fun a b => a + b)
          (breakdown_row g (cost_per_hour_pneumatic_actuation g cyl))
          (breakdown_row g ((cost_per_hour_pneumatic_waste g d : ℚ) : ℝ)))
        (breakdown_row g ((cost_per_hour_servo g srv : ℚ) : ℝ)) =
      breakdown_total_row g cyl srv d := by
  simp only [breakdown_row, breakdown_total_row, List.zipWith, cost_per_hour_total,
    cost_per_day_total, cost_per_week_total, cost_per_year_total, List.cons.injEq, and_true]
  refine ⟨trivial, by ring, by ring, by ring⟩

/-- C7: a cylinder row with non-positive quantity, bore or stroke contributes
exactly 0 to the actuation cost: its per-row air is 0 and deleting it from the
row list leaves `cost_per_hour_pneumatic_actuation` unchanged (the embedding
is a total function, so no error is ever raised on such a row). -/
theorem C7_invalid_cylinder_row_excluded (g : GlobalParameters) (c : CylinderSpec)
    (pre post : List CylinderSpec)
    (h : c.quantity ≤ 0 ∨ c.bore_mm ≤ 0 ∨ c.stroke_mm ≤ 0) :
    cylinder_row_air g c = 0 ∧
      cost_per_hour_pneumatic_actuation g (pre ++ c :: post) =
        cost_per_hour_pneumatic_actuation g (pre ++ post) := by
  have hz : cylinder_row_air g c = 0 := by
    unfold cylinder_row_air
    rw [if_neg]
    rintro ⟨h1, h2, h3⟩
    rcases h with h | h | h <;> linarith
  refine ⟨hz, ?_⟩
  unfold cost_per_hour_pneumatic_actuation kwh_per_hour_pneumatic_actuation
    total_actuation_air_per_hour_m3
  rw [total_free_air_eq_sum, total_free_air_eq_sum]
  simp [hz]

/-- C7 witness: a row with quantity 0 and positive bore/stroke contributes
nothing at the concrete parameter set of Scenario A. -/
theorem C7_invalid_cylinder_row_excluded_witness :
    ((⟨0, 50, 200⟩ : CylinderSpec).quantity ≤ 0 ∨
        (⟨0, 50, 200⟩ : CylinderSpec).bore_mm ≤ 0 ∨
        (⟨0, 50, 200⟩ : CylinderSpec).stroke_mm ≤ 0) ∧
      (cylinder_row_air (⟨20, 6, 0.15, 8, 5, 0.12⟩ : GlobalParameters)
          (⟨0, 50, 200⟩ : CylinderSpec) = 0 ∧
        cost_per_hour_pneumatic_actuation (⟨20, 6, 0.15, 8, 5, 0.12⟩ : GlobalParameters)
            ([] ++ (⟨0, 50, 200⟩ : CylinderSpec) :: []) =
          cost_per_hour_pneumatic_actuation (⟨20, 6, 0.15, 8, 5, 0.12⟩ : GlobalParameters)
            ([] ++ [])) :=
  ⟨Or.inl (by norm_num),
    C7_invalid_cylinder_row_excluded (⟨20, 6, 0.15, 8, 5, 0.12⟩ : GlobalParameters)
      (⟨0, 50, 200⟩ : CylinderSpec) [] [] (Or.inl (by norm_num))⟩

/-- C10: a servo row with negative utilization is excluded by the
`util_pct >= 0` guard: its contribution to `total_servo_power_watts` is 0 and
deleting it from the row list leaves `cost_per_hour_servo` unchanged, even
when quantity and power are positive. -/
theorem C10_negative_utilization_voids_row (g : GlobalParameters) (s : ServoSpec)
    (pre post : List ServoSpec) (h : s.utilization_pct < 0) :
    servo_row_power s = 0 ∧
      cost_per_hour_servo g (pre ++ s :: post) = cost_per_hour_servo g (pre ++ post) := by
  have hz : servo_row_power s = 0 := by
    unfold servo_row_power
    rw [if_neg]
    rintro ⟨h1, h2, h3⟩
    linarith
  refine ⟨hz, ?_⟩
  unfold cost_per_hour_servo kwh_per_hour_servo
  rw [total_servo_power_eq_sum, total_servo_power_eq_sum]
  simp [hz]

/-- C10 witness: a row with quantity 1, power 750 W and utilization −5 %
contributes nothing at the Scenario B parameter set. -/
theorem C10_negative_utilization_voids_row_witness :
    (⟨1, 750, -5⟩ : ServoSpec).utilization_pct < 0 ∧
      (servo_row_power (⟨1, 750, -5⟩ : ServoSpec) = 0 ∧
        cost_per_hour_servo (⟨20, 6, 0.15, 8, 5, 0.12⟩ : GlobalParameters)
            ([] ++ (⟨1, 750, -5⟩ : ServoSpec) :: []) =
          cost_per_hour_servo (⟨20, 6, 0.15, 8, 5, 0.12⟩ : GlobalParameters) ([] ++ [])) :=
  ⟨by norm_num,
    C10_negative_utilization_voids_row (⟨20, 6, 0.15, 8, 5, 0.12⟩ : GlobalParameters)
      (⟨1, 750, -5⟩ : ServoSpec) [] [] (by norm_num)⟩

/-- C1: pneumatic actuation correctness — a valid cylinder row (quantity, bore
and stroke all positive) contributes exactly
`2 × (π × (bore_mm/1000/2)² × (stroke_mm/1000)) × (pressure_bar + 1) × quantity`
cubic meters of free air per cycle; the hourly cost is the sum of the row
contributions times `cycle_rate × 60 × compressor_efficiency ×
electricity_cost`; and Scenario A evaluates to about 0.2375 per hour. -/
theorem C1_pneumatic_actuation_correct (g : GlobalParameters) (rows : List CylinderSpec)
    (c : CylinderSpec) (hq : 0 < c.quantity) (hb : 0 < c.bore_mm) (hs : 0 < c.stroke_mm) :
    cylinder_row_air g c =
        2 * (Real.pi * ((c.bore_mm : ℝ) / 1000 / 2) ^ 2 * ((c.stroke_mm : ℝ) / 1000)) *
          ((g.pressure_bar : ℝ) + 1) * (c.quantity : ℝ) ∧
    cost_per_hour_pneumatic_actuation g rows =
        (rows.map (cylinder_row_air g)).sum * (g.cycle_rate_per_min : ℝ) * 60 *
          (g.compressor_efficiency_kwh_per_m3 : ℝ) * (g.electricity_cost_per_kwh : ℝ) ∧
    |cost_per_hour_pneumatic_actuation (⟨20, 6, 0.15, 8, 5, 0.12⟩ : GlobalParameters)
        [⟨2, 50, 200⟩] - 0.2375| < 0.001 := by
  refine ⟨?_, ?_, ?_⟩
  · unfold cylinder_row_air free_air_per_cycle cylinder_volume_m3
    rw [if_pos ⟨hq, hb, hs⟩]
    push_cast
    ring
  · unfold cost_per_hour_pneumatic_actuation kwh_per_hour_pneumatic_actuation
      total_actuation_air_per_hour_m3
    rw [total_free_air_eq_sum]
  · have hval : cost_per_hour_pneumatic_actuation (⟨20, 6, 0.15, 8, 5, 0.12⟩ :
        GlobalParameters) [⟨2, 50, 200⟩] = 0.0756 * Real.pi := by
      unfold cost_per_hour_pneumatic_actuation kwh_per_hour_pneumatic_actuation
        total_actuation_air_per_hour_m3 total_free_air_per_cycle_m3 cylinder_row_air
        free_air_per_cycle cylinder_volume_m3
      simp only [List.foldl]
      rw [if_pos (by norm_num)]
      push_cast
      ring
    rw [hval, abs_lt]
    constructor
    · nlinarith [Real.pi_gt_d6]
    · nlinarith [Real.pi_lt_d6]

/-- C1 witness: the theorem instantiated at Scenario A's single row
{quantity = 2, bore = 50 mm, stroke = 200 mm} and parameter set. -/
theorem C1_pneumatic_actuation_correct_witness :
    (0 : ℚ) < (⟨2, 50, 200⟩ : CylinderSpec).quantity ∧
    (0 : ℚ) < (⟨2, 50, 200⟩ : CylinderSpec).bore_mm ∧
    (0 : ℚ) < (⟨2, 50, 200⟩ : CylinderSpec).stroke_mm ∧
    (cylinder_row_air (⟨20, 6, 0.15, 8, 5, 0.12⟩ : GlobalParameters)
          (⟨2, 50, 200⟩ : CylinderSpec) =
        2 * (Real.pi * (((⟨2, 50, 200⟩ : CylinderSpec).bore_mm : ℝ) / 1000 / 2) ^ 2 *
            (((⟨2, 50, 200⟩ : CylinderSpec).stroke_mm : ℝ) / 1000)) *
          (((⟨20, 6, 0.15, 8, 5, 0.12⟩ : GlobalParameters).pressure_bar : ℝ) + 1) *
          ((⟨2, 50, 200⟩ : CylinderSpec).quantity : ℝ) ∧
      cost_per_hour_pneumatic_actuation (⟨20, 6, 0.15, 8, 5, 0.12⟩ : GlobalParameters)
          [⟨2, 50, 200⟩] =
        ([(⟨2, 50, 200⟩ : CylinderSpec)].map
            (cylinder_row_air (⟨20, 6, 0.15, 8, 5, 0.12⟩ : GlobalParameters))).sum *
          (((⟨20, 6, 0.15, 8, 5, 0.12⟩ : GlobalParameters).cycle_rate_per_min : ℝ)) * 60 *
          (((⟨20, 6, 0.15, 8, 5, 0.12⟩ :
              GlobalParameters).compressor_efficiency_kwh_per_m3 : ℝ)) *
          (((⟨20, 6, 0.15, 8, 5, 0.12⟩ : GlobalParameters).electricity_cost_per_kwh : ℝ)) ∧
      |cost_per_hour_pneumatic_actuation (⟨20, 6, 0.15, 8, 5, 0.12⟩ : GlobalParameters)
          [⟨2, 50, 200⟩] - 0.2375| < 0.001) :=
  ⟨by norm_num, by norm_num, by norm_num,
    C1_pneumatic_actuation_correct (⟨20, 6, 0.15, 8, 5, 0.12⟩ : GlobalParameters)
      [⟨2, 50, 200⟩] (⟨2, 50, 200⟩ : CylinderSpec)
      (by norm_num) (by norm_num) (by norm_num)⟩

/-- C2: pneumatic waste correctness — the waste cost is 0 when the dump is
disabled or the receiver volume is non-positive; otherwise, in
RandomEventsPerHour mode, it equals
`(receiver_liters/1000) × (pressure_bar + 1) × dumps_per_hour ×
compressor_efficiency × electricity_cost`; and Scenario D (10 L receiver,
AfterEveryCycle, 5 cycles/min, 6 bar, 0.15 kWh/m³, 0.12/kWh) evaluates to
0.378 per hour. -/
theorem C2_pneumatic_waste_correct (g : GlobalParameters) (d : SafetyDumpConfig) :
    ((d.enabled = false ∨ d.receiver_volume_liters ≤ 0) →
        cost_per_hour_pneumatic_waste g d = 0) ∧
    (d.enabled = true → 0 < d.receiver_volume_liters →
        d.trigger_mode = TriggerMode.RandomEventsPerHour →
        cost_per_hour_pneumatic_waste g d =
          d.receiver_volume_liters / 1000 * (g.pressure_bar + 1) * d.dumps_per_hour *
            g.compressor_efficiency_kwh_per_m3 * g.electricity_cost_per_kwh) ∧
    cost_per_hour_pneumatic_waste (⟨5, 6, 0.15, 8, 5, 0.12⟩ : GlobalParameters)
        (⟨true, 10, TriggerMode.AfterEveryCycle, 0⟩ : SafetyDumpConfig) = 0.378 := by
  obtain ⟨e, r, t, dp⟩ := d
  refine ⟨?_, ?_, ?_⟩
  · intro h
    unfold cost_per_hour_pneumatic_waste
    rw [if_neg]
    rintro ⟨he, hr⟩
    rcases h with h | h
    · simp only at he hr h
      rw [h] at he
      exact Bool.false_ne_true he
    · simp only at he hr
      linarith
  · intro he hr ht
    simp only at he hr ht
    subst ht
    unfold cost_per_hour_pneumatic_waste total_waste_air_per_hour_m3 free_air_per_dump_m3
    rw [if_pos ⟨he, hr⟩]
  · unfold cost_per_hour_pneumatic_waste total_waste_air_per_hour_m3 free_air_per_dump_m3
      dumps_per_hour_from_cycles
    rw [if_pos ⟨rfl, by norm_num⟩]
    norm_num

/-- C2 witness: the Random mode formula instantiated at an enabled dump with a
10 L receiver and 4 dumps per hour. -/
theorem C2_pneumatic_waste_correct_witness :
    (⟨true, 10, TriggerMode.RandomEventsPerHour, 4⟩ : SafetyDumpConfig).enabled = true ∧
    (0 : ℚ) <
      (⟨true, 10, TriggerMode.RandomEventsPerHour, 4⟩ :
        SafetyDumpConfig).receiver_volume_liters ∧
    (⟨true, 10, TriggerMode.RandomEventsPerHour, 4⟩ : SafetyDumpConfig).trigger_mode =
      TriggerMode.RandomEventsPerHour ∧
    cost_per_hour_pneumatic_waste (⟨5, 6, 0.15, 8, 5, 0.12⟩ : GlobalParameters)
        (⟨true, 10, TriggerMode.RandomEventsPerHour, 4⟩ : SafetyDumpConfig) =
      (⟨true, 10, TriggerMode.RandomEventsPerHour, 4⟩ :
            SafetyDumpConfig).receiver_volume_liters / 1000 *
          ((⟨5, 6, 0.15, 8, 5, 0.12⟩ : GlobalParameters).pressure_bar + 1) *
          (⟨true, 10, TriggerMode.RandomEventsPerHour, 4⟩ : SafetyDumpConfig).dumps_per_hour *
          (⟨5, 6, 0.15, 8, 5, 0.12⟩ : GlobalParameters).compressor_efficiency_kwh_per_m3 *
          (⟨5, 6, 0.15, 8, 5, 0.12⟩ : GlobalParameters).electricity_cost_per_kwh :=
  ⟨rfl, by norm_num, rfl,
    (C2_pneumatic_waste_correct (⟨5, 6, 0.15, 8, 5, 0.12⟩ : GlobalParameters)
        (⟨true, 10, TriggerMode.RandomEventsPerHour, 4⟩ : SafetyDumpConfig)).2.1
      rfl (by norm_num) rfl⟩

/-- C3: trigger-mode equivalence — with the dump enabled, a positive receiver
volume and `trigger_mode = AfterEveryCycle`, the waste calculation multiplies
`free_air_per_dump_m3` by `cycle_rate_per_min × 60` whatever `dumps_per_hour`
holds: replacing `dumps_per_hour` by any value changes neither the waste air
volume nor the waste cost. -/
theorem C3_after_every_cycle_overrides (g : GlobalParameters) (d : SafetyDumpConfig)
    (x : ℚ) (he : d.enabled = true) (hr : 0 < d.receiver_volume_liters)
    (ht : d.trigger_mode = TriggerMode.AfterEveryCycle) :
    total_waste_air_per_hour_m3 g { d with dumps_per_hour := x } =
        free_air_per_dump_m3 g d * (g.cycle_rate_per_min * 60) ∧
    cost_per_hour_pneumatic_waste g { d with dumps_per_hour := x } =
        cost_per_hour_pneumatic_waste g d := by
  obtain ⟨e, r, t, dp⟩ := d
  simp only at he hr ht
  subst ht
  subst he
  exact ⟨rfl, rfl⟩

/-- C3 witness: the override instantiated at a 10 L enabled dump whose
`dumps_per_hour` field is replaced by 999. -/
theorem C3_after_every_cycle_overrides_witness :
    (⟨true, 10, TriggerMode.AfterEveryCycle, 4⟩ : SafetyDumpConfig).enabled = true ∧
    (0 : ℚ) <
      (⟨true, 10, TriggerMode.AfterEveryCycle, 4⟩ : SafetyDumpConfig).receiver_volume_liters ∧
    (⟨true, 10, TriggerMode.AfterEveryCycle, 4⟩ : SafetyDumpConfig).trigger_mode =
      TriggerMode.AfterEveryCycle ∧
    (total_waste_air_per_hour_m3 (⟨5, 6, 0.15, 8, 5, 0.12⟩ : GlobalParameters)
          { (⟨true, 10, TriggerMode.AfterEveryCycle, 4⟩ : SafetyDumpConfig) with
            dumps_per_hour := 999 } =
        free_air_per_dump_m3 (⟨5, 6, 0.15, 8, 5, 0.12⟩ : GlobalParameters)
            (⟨true, 10, TriggerMode.AfterEveryCycle, 4⟩ : SafetyDumpConfig) *
          ((⟨5, 6, 0.15, 8, 5, 0.12⟩ : GlobalParameters).cycle_rate_per_min * 60) ∧
      cost_per_hour_pneumatic_waste (⟨5, 6, 0.15, 8, 5, 0.12⟩ : GlobalParameters)
          { (⟨true, 10, TriggerMode.AfterEveryCycle, 4⟩ : SafetyDumpConfig) with
            dumps_per_hour := 999 } =
        cost_per_hour_pneumatic_waste (⟨5, 6, 0.15, 8, 5, 0.12⟩ : GlobalParameters)
          (⟨true, 10, TriggerMode.AfterEveryCycle, 4⟩ : SafetyDumpConfig)) :=
  ⟨rfl, by norm_num, rfl,
    C3_after_every_cycle_overrides (⟨5, 6, 0.15, 8, 5, 0.12⟩ : GlobalParameters)
      (⟨true, 10, TriggerMode.AfterEveryCycle, 4⟩ : SafetyDumpConfig) 999
      rfl (by norm_num) rfl⟩

/-- C4: servo correctness — a valid servo row (quantity and power positive,
utilization nonnegative) contributes
`power_watts × (utilization_pct/100) × quantity` watts; the hourly servo cost
is the summed wattage divided by 1000 times the electricity cost; a row with
utilization 0 contributes exactly zero; and Scenario B
({quantity = 1, power = 750 W, utilization = 40 %}, 0.12/kWh) evaluates to
0.036 per hour. -/
theorem C4_servo_correct (g : GlobalParameters) (rows : List ServoSpec) (s : ServoSpec)
    (hq : 0 < s.quantity) (hp : 0 < s.power_watts) (hu : 0 ≤ s.utilization_pct) :
    servo_row_power s = s.power_watts * (s.utilization_pct / 100) * s.quantity ∧
    cost_per_hour_servo g rows =
        (rows.map servo_row_power).sum / 1000 * g.electricity_cost_per_kwh ∧
    (s.utilization_pct = 0 → servo_row_power s = 0) ∧
    cost_per_hour_servo (⟨20, 6, 0.15, 8, 5, 0.12⟩ : GlobalParameters) [⟨1, 750, 40⟩] =
      0.036 := by
  refine ⟨?_, ?_, ?_, ?_⟩
  · unfold servo_row_power avg_power_per_motor_w
    rw [if_pos ⟨hq, hp, hu⟩]
  · unfold cost_per_hour_servo kwh_per_hour_servo
    rw [total_servo_power_eq_sum]
  · intro h0
    unfold servo_row_power avg_power_per_motor_w
    rw [if_pos ⟨hq, hp, hu⟩, h0]
    ring
  · unfold cost_per_hour_servo kwh_per_hour_servo total_servo_power_watts
    simp only [List.foldl]
    unfold servo_row_power avg_power_per_motor_w
    rw [if_pos (by norm_num)]
    norm_num

/-- C4 witness: the theorem instantiated at Scenario B's single row
{quantity = 1, power = 750 W, utilization = 40 %}. -/
theorem C4_servo_correct_witness :
    (0 : ℚ) < (⟨1, 750, 40⟩ : ServoSpec).quantity ∧
    (0 : ℚ) < (⟨1, 750, 40⟩ : ServoSpec).power_watts ∧
    (0 : ℚ) ≤ (⟨1, 750, 40⟩ : ServoSpec).utilization_pct ∧
    (servo_row_power (⟨1, 750, 40⟩ : ServoSpec) =
        (⟨1, 750, 40⟩ : ServoSpec).power_watts *
          ((⟨1, 750, 40⟩ : ServoSpec).utilization_pct / 100) *
          (⟨1, 750, 40⟩ : ServoSpec).quantity ∧
      cost_per_hour_servo (⟨20, 6, 0.15, 8, 5, 0.12⟩ : GlobalParameters) [⟨1, 750, 40⟩] =
        ([(⟨1, 750, 40⟩ : ServoSpec)].map servo_row_power).sum / 1000 *
          (⟨20, 6, 0.15, 8, 5, 0.12⟩ : GlobalParameters).electricity_cost_per_kwh ∧
      ((⟨1, 750, 40⟩ : ServoSpec).utilization_pct = 0 →
        servo_row_power (⟨1, 750, 40⟩ : ServoSpec) = 0) ∧
      cost_per_hour_servo (⟨20, 6, 0.15, 8, 5, 0.12⟩ : GlobalParameters) [⟨1, 750, 40⟩] =
        0.036) :=
  ⟨by norm_num, by norm_num, by norm_num,
    C4_servo_correct (⟨20, 6, 0.15, 8, 5, 0.12⟩ : GlobalParameters)
      [⟨1, 750, 40⟩] (⟨1, 750, 40⟩ : ServoSpec) (by norm_num) (by norm_num) (by norm_num)⟩

/-- Summed row air factors as the summed pressure-free bases times `p + 1`. -/
lemma map_row_air_sum_factor (g : GlobalParameters) (rows : List CylinderSpec) :
    (rows.map (cylinder_row_air g)).sum =
      (rows.map cylinder_row_base_air).sum * ((g.pressure_bar : ℝ) + 1) := by
  induction rows with
  | nil => simp
  | cons a t ih => simp [cylinder_row_air_factor, ih, add_mul]

/-- The actuation cost as pressure-free base times the remaining factors. -/
lemma actuation_cost_eq (g : GlobalParameters) (rows : List CylinderSpec) :
    cost_per_hour_pneumatic_actuation g rows =
      (rows.map cylinder_row_base_air).sum *
        (((g.pressure_bar : ℝ) + 1) * ((g.cycle_rate_per_min : ℝ) * 60 *
          (g.compressor_efficiency_kwh_per_m3 : ℝ) * (g.electricity_cost_per_kwh : ℝ))) := by
  unfold cost_per_hour_pneumatic_actuation kwh_per_hour_pneumatic_actuation
    total_actuation_air_per_hour_m3
  rw [total_free_air_eq_sum, map_row_air_sum_factor]
  ring

/-- With nonnegative pressure, every cylinder row contributes nonnegatively. -/
lemma cylinder_row_air_nonneg (g : GlobalParameters) (c : CylinderSpec)
    (hp : 0 ≤ g.pressure_bar) : 0 ≤ cylinder_row_air g c := by
  rw [cylinder_row_air_factor]
  have h1 : (0 : ℝ) ≤ (g.pressure_bar : ℝ) + 1 := by
    have h : (0 : ℚ) ≤ g.pressure_bar + 1 := by linarith
    exact_mod_cast h
  exact mul_nonneg (cylinder_row_base_air_nonneg c) h1

/-- Every servo row contributes nonnegatively (the guard requires a
nonnegative utilization). -/
lemma servo_row_power_nonneg (s : ServoSpec) : 0 ≤ servo_row_power s := by
  unfold servo_row_power avg_power_per_motor_w
  split
  · rename_i h
    exact mul_nonneg (mul_nonneg h.2.1.le (div_nonneg h.2.2 (by norm_num))) h.1.le
  · exact le_refl 0

/-- C8: pressure monotonicity — with positive cycle rate, compressor
efficiency and electricity cost, raising `pressure_bar` strictly increases
`cost_per_hour_pneumatic_actuation` whenever the total actuation air volume is
positive, and strictly increases `cost_per_hour_pneumatic_waste` whenever the
dump is enabled with positive receiver volume and positive effective dump
frequency. -/
theorem C8_pressure_monotonic (g : GlobalParameters) (rows : List CylinderSpec)
    (d : SafetyDumpConfig) (p2 : ℚ)
    (hrate : 0 < g.cycle_rate_per_min) (heff : 0 < g.compressor_efficiency_kwh_per_m3)
    (helec : 0 < g.electricity_cost_per_kwh) (hp : 0 < g.pressure_bar)
    (hlt : g.pressure_bar < p2) :
    (0 < total_free_air_per_cycle_m3 g rows →
        cost_per_hour_pneumatic_actuation g rows <
          cost_per_hour_pneumatic_actuation { g with pressure_bar := p2 } rows) ∧
    (d.enabled = true → 0 < d.receiver_volume_liters →
        0 < (match d.trigger_mode with
          | TriggerMode.RandomEventsPerHour => d.dumps_per_hour
          | TriggerMode.AfterEveryCycle => dumps_per_hour_from_cycles g) →
        cost_per_hour_pneumatic_waste g d <
          cost_per_hour_pneumatic_waste { g with pressure_bar := p2 } d) := by
  obtain ⟨grate, gp, geff, ghh, gdd, gelec⟩ := g
  simp only at hrate heff helec hp hlt
  constructor
  · intro hpos
    have hp1 : (0 : ℝ) < (gp : ℝ) + 1 := by
      have h : (0 : ℚ) < gp + 1 := by linarith
      exact_mod_cast h
    have hB : 0 < (rows.map cylinder_row_base_air).sum := by
      rw [total_free_air_eq_sum, map_row_air_sum_factor] at hpos
      simp only at hpos
      by_contra hcon
      push_neg at hcon
      nlinarith
    have hC : (0 : ℝ) < (grate : ℝ) * 60 * (geff : ℝ) * (gelec : ℝ) := by
      have h1 : (0 : ℝ) < (grate : ℝ) := by exact_mod_cast hrate
      have h2 : (0 : ℝ) < (geff : ℝ) := by exact_mod_cast heff
      have h3 : (0 : ℝ) < (gelec : ℝ) := by exact_mod_cast helec
      positivity
    rw [actuation_cost_eq, actuation_cost_eq]
    dsimp only
    apply mul_lt_mul_of_pos_left _ hB
    apply mul_lt_mul_of_pos_right _ hC
    have h : (gp : ℝ) < (p2 : ℝ) := by exact_mod_cast hlt
    linarith
  · intro he hr hfreq
    obtain ⟨e, r, t, dp⟩ := d
    simp only at he hr hfreq
    subst he
    unfold cost_per_hour_pneumatic_waste total_waste_air_per_hour_m3 free_air_per_dump_m3
      dumps_per_hour_from_cycles
    rw [if_pos ⟨rfl, hr⟩, if_pos ⟨rfl, hr⟩]
    have hr1000 : (0 : ℚ) < r / 1000 := by positivity
    cases t with
    | RandomEventsPerHour =>
      dsimp only at hfreq ⊢
      nlinarith [mul_pos (mul_pos (mul_pos hr1000 hfreq) heff) helec]
    | AfterEveryCycle =>
      unfold dumps_per_hour_from_cycles at hfreq
      dsimp only at hfreq ⊢
      nlinarith [mul_pos (mul_pos (mul_pos hr1000 hfreq) heff) helec]

/-- C8 witness: raising the pressure from 6 bar to 7 bar strictly increases
both pneumatic costs at Scenario A's cylinder row and an enabled 10 L dump
with 4 random events per hour. -/
theorem C8_pressure_monotonic_witness :
    cost_per_hour_pneumatic_actuation (⟨20, 6, 0.15, 8, 5, 0.12⟩ : GlobalParameters)
        [⟨2, 50, 200⟩] <
      cost_per_hour_pneumatic_actuation
        { (⟨20, 6, 0.15, 8, 5, 0.12⟩ : GlobalParameters) with pressure_bar := 7 }
        [⟨2, 50, 200⟩] ∧
    cost_per_hour_pneumatic_waste (⟨20, 6, 0.15, 8, 5, 0.12⟩ : GlobalParameters)
        (⟨true, 10, TriggerMode.RandomEventsPerHour, 4⟩ : SafetyDumpConfig) <
      cost_per_hour_pneumatic_waste
        { (⟨20, 6, 0.15, 8, 5, 0.12⟩ : GlobalParameters) with pressure_bar := 7 }
        (⟨true, 10, TriggerMode.RandomEventsPerHour, 4⟩ : SafetyDumpConfig) :=
  ⟨(C8_pressure_monotonic (⟨20, 6, 0.15, 8, 5, 0.12⟩ : GlobalParameters) [⟨2, 50, 200⟩]
        (⟨true, 10, TriggerMode.RandomEventsPerHour, 4⟩ : SafetyDumpConfig) 7
        (by norm_num) (by norm_num) (by norm_num) (by norm_num) (by norm_num)).1
      (by
        unfold total_free_air_per_cycle_m3 cylinder_row_air free_air_per_cycle
          cylinder_volume_m3
        simp only [List.foldl]
        rw [if_pos (by norm_num)]
        push_cast
        nlinarith [Real.pi_pos]),
    (C8_pressure_monotonic (⟨20, 6, 0.15, 8, 5, 0.12⟩ : GlobalParameters) [⟨2, 50, 200⟩]
        (⟨true, 10, TriggerMode.RandomEventsPerHour, 4⟩ : SafetyDumpConfig) 7
        (by norm_num) (by norm_num) (by norm_num) (by norm_num) (by norm_num)).2
      rfl (by norm_num) (by norm_num)⟩

/-- With nonnegative pressure/rate/efficiency/electricity, the actuation cost
is nonnegative. -/
lemma actuation_cost_nonneg (g : GlobalParameters) (rows : List CylinderSpec)
    (hp : 0 ≤ g.pressure_bar) (hrate : 0 ≤ g.cycle_rate_per_min)
    (heff : 0 ≤ g.compressor_efficiency_kwh_per_m3)
    (helec : 0 ≤ g.electricity_cost_per_kwh) :
    0 ≤ cost_per_hour_pneumatic_actuation g rows := by
  unfold cost_per_hour_pneumatic_actuation kwh_per_hour_pneumatic_actuation
    total_actuation_air_per_hour_m3
  rw [total_free_air_eq_sum]
  have hsum : 0 ≤ (rows.map (cylinder_row_air g)).sum := by
    apply List.sum_nonneg
    intro x hx
    obtain ⟨c, _, rfl⟩ := List.mem_map.1 hx
    exact cylinder_row_air_nonneg g c hp
  have h1 : (0 : ℝ) ≤ (g.cycle_rate_per_min : ℝ) := by exact_mod_cast hrate
  have h2 : (0 : ℝ) ≤ (g.compressor_efficiency_kwh_per_m3 : ℝ) := by exact_mod_cast heff
  have h3 : (0 : ℝ) ≤ (g.electricity_cost_per_kwh : ℝ) := by exact_mod_cast helec
  have h60 : (0 : ℝ) ≤ 60 := by norm_num
  exact mul_nonneg (mul_nonneg (mul_nonneg (mul_nonneg hsum h1) h60) h2) h3

/-- With nonnegative pressure/rate/efficiency/electricity and a nonnegative
`dumps_per_hour`, the waste cost is nonnegative. -/
lemma waste_cost_nonneg (g : GlobalParameters) (d : SafetyDumpConfig)
    (hp : 0 ≤ g.pressure_bar) (hrate : 0 ≤ g.cycle_rate_per_min)
    (heff : 0 ≤ g.compressor_efficiency_kwh_per_m3)
    (helec : 0 ≤ g.electricity_cost_per_kwh) (hdump : 0 ≤ d.dumps_per_hour) :
    0 ≤ cost_per_hour_pneumatic_waste g d := by
  obtain ⟨e, r, t, dp⟩ := d
  simp only at hdump
  unfold cost_per_hour_pneumatic_waste total_waste_air_per_hour_m3 free_air_per_dump_m3
    dumps_per_hour_from_cycles
  split
  · rename_i h
    have hfa : (0 : ℚ) ≤ r / 1000 * (g.pressure_bar + 1) :=
      mul_nonneg (div_nonneg h.2.le (by norm_num)) (by linarith)
    cases t with
    | RandomEventsPerHour =>
      exact mul_nonneg (mul_nonneg (mul_nonneg hfa hdump) heff) helec
    | AfterEveryCycle =>
      exact mul_nonneg (mul_nonneg (mul_nonneg hfa (by linarith)) heff) helec
  · exact le_refl 0

/-- With a nonnegative electricity cost, the servo cost is nonnegative. -/
lemma servo_cost_nonneg (g : GlobalParameters) (rows : List ServoSpec)
    (helec : 0 ≤ g.electricity_cost_per_kwh) : 0 ≤ cost_per_hour_servo g rows := by
  unfold cost_per_hour_servo kwh_per_hour_servo
  rw [total_servo_power_eq_sum]
  have hsum : 0 ≤ (rows.map servo_row_power).sum := by
    apply List.sum_nonneg
    intro x hx
    obtain ⟨s, _, rfl⟩ := List.mem_map.1 hx
    exact servo_row_power_nonneg s
  exact mul_nonneg (div_nonneg hsum (by norm_num)) helec

/-- C9: nonnegativity of outputs — with positive cycle rate, pressure,
compressor efficiency and electricity cost, nonnegative schedule fields and a
nonnegative `dumps_per_hour` (the data model types it as a nonnegative real),
every field of the `CostBreakdown` produced by `compute` is nonnegative for
arbitrary cylinder and servo rows; and Scenario C (empty lists, dump disabled)
yields the all-zero breakdown. -/
theorem C9_outputs_nonneg (g : GlobalParameters) (cyl : List CylinderSpec)
    (srv : List ServoSpec) (d : SafetyDumpConfig)
    (hrate : 0 < g.cycle_rate_per_min) (hp : 0 < g.pressure_bar)
    (heff : 0 < g.compressor_efficiency_kwh_per_m3)
    (helec : 0 < g.electricity_cost_per_kwh)
    (hh : 0 ≤ g.hours_per_day) (hd : 0 ≤ g.days_per_week)
    (hdump : 0 ≤ d.dumps_per_hour) :
    (0 ≤ (compute g cyl srv d).pneumatic_actuation_hourly ∧
      0 ≤ (compute g cyl srv d).pneumatic_waste_hourly ∧
      0 ≤ (compute g cyl srv d).servo_hourly ∧
      0 ≤ (compute g cyl srv d).total_hourly ∧
      0 ≤ (compute g cyl srv d).total_daily ∧
      0 ≤ (compute g cyl srv d).total_weekly ∧
      0 ≤ (compute g cyl srv d).total_annual) ∧
    compute (⟨20, 6, 0.15, 8, 5, 0.12⟩ : GlobalParameters) [] []
        (⟨false, 10, TriggerMode.RandomEventsPerHour, 4⟩ : SafetyDumpConfig) =
      ⟨0, 0, 0, 0, 0, 0, 0⟩ := by
  have ha := actuation_cost_nonneg g cyl hp.le hrate.le heff.le helec.le
  have hw := waste_cost_nonneg g d hp.le hrate.le heff.le helec.le hdump
  have hs := servo_cost_nonneg g srv helec.le
  have hw' : (0 : ℝ) ≤ (cost_per_hour_pneumatic_waste g d : ℝ) := by exact_mod_cast hw
  have hs' : (0 : ℝ) ≤ (cost_per_hour_servo g srv : ℝ) := by exact_mod_cast hs
  have hh' : (0 : ℝ) ≤ (g.hours_per_day : ℝ) := by exact_mod_cast hh
  have hd' : (0 : ℝ) ≤ (g.days_per_week : ℝ) := by exact_mod_cast hd
  have htot : 0 ≤ cost_per_hour_total g cyl srv d :=
    add_nonneg (add_nonneg ha hw') hs'
  have hday : 0 ≤ cost_per_day_total g cyl srv d := mul_nonneg htot hh'
  have hweek : 0 ≤ cost_per_week_total g cyl srv d := mul_nonneg hday hd'
  have hyear : 0 ≤ cost_per_year_total g cyl srv d := mul_nonneg hweek (by norm_num)
  refine ⟨⟨ha, hw', hs', htot, hday, hweek, hyear⟩, ?_⟩
  unfold compute cost_per_year_total cost_per_week_total cost_per_day_total
    cost_per_hour_total cost_per_hour_pneumatic_actuation kwh_per_hour_pneumatic_actuation
    total_actuation_air_per_hour_m3 total_free_air_per_cycle_m3
    cost_per_hour_pneumatic_waste cost_per_hour_servo kwh_per_hour_servo
    total_servo_power_watts
  norm_num

/-- C9 witness: the field bounds instantiated at Scenario A's parameter set
with no rows and a disabled dump. -/
theorem C9_outputs_nonneg_witness :
    (0 : ℚ) < (⟨20, 6, 0.15, 8, 5, 0.12⟩ : GlobalParameters).cycle_rate_per_min ∧
    (0 : ℚ) < (⟨20, 6, 0.15, 8, 5, 0.12⟩ : GlobalParameters).pressure_bar ∧
    (0 ≤ (compute (⟨20, 6, 0.15, 8, 5, 0.12⟩ : GlobalParameters) [] []
          (⟨false, 10, TriggerMode.RandomEventsPerHour, 4⟩ :
            SafetyDumpConfig)).pneumatic_actuation_hourly ∧
      0 ≤ (compute (⟨20, 6, 0.15, 8, 5, 0.12⟩ : GlobalParameters) [] []
          (⟨false, 10, TriggerMode.RandomEventsPerHour, 4⟩ :
            SafetyDumpConfig)).pneumatic_waste_hourly ∧
      0 ≤ (compute (⟨20, 6, 0.15, 8, 5, 0.12⟩ : GlobalParameters) [] []
          (⟨false, 10, TriggerMode.RandomEventsPerHour, 4⟩ :
            SafetyDumpConfig)).servo_hourly ∧
      0 ≤ (compute (⟨20, 6, 0.15, 8, 5, 0.12⟩ : GlobalParameters) [] []
          (⟨false, 10, TriggerMode.RandomEventsPerHour, 4⟩ :
            SafetyDumpConfig)).total_hourly ∧
      0 ≤ (compute (⟨20, 6, 0.15, 8, 5, 0.12⟩ : GlobalParameters) [] []
          (⟨false, 10, TriggerMode.RandomEventsPerHour, 4⟩ :
            SafetyDumpConfig)).total_daily ∧
      0 ≤ (compute (⟨20, 6, 0.15, 8, 5, 0.12⟩ : GlobalParameters) [] []
          (⟨false, 10, TriggerMode.RandomEventsPerHour, 4⟩ :
            SafetyDumpConfig)).total_weekly ∧
      0 ≤ (compute (⟨20, 6, 0.15, 8, 5, 0.12⟩ : GlobalParameters) [] []
          (⟨false, 10, TriggerMode.RandomEventsPerHour, 4⟩ :
            SafetyDumpConfig)).total_annual) ∧
    compute (⟨20, 6, 0.15, 8, 5, 0.12⟩ : GlobalParameters) [] []
        (⟨false, 10, TriggerMode.RandomEventsPerHour, 4⟩ : SafetyDumpConfig) =
      ⟨0, 0, 0, 0, 0, 0, 0⟩ :=
  ⟨by norm_num, by norm_num,
    (C9_outputs_nonneg (⟨20, 6, 0.15, 8, 5, 0.12⟩ : GlobalParameters) [] []
        (⟨false, 10, TriggerMode.RandomEventsPerHour, 4⟩ : SafetyDumpConfig)
        (by norm_num) (by norm_num) (by norm_num) (by norm_num) (by norm_num) (by norm_num)
        (by norm_num)).1,
    (C9_outputs_nonneg (⟨20, 6, 0.15, 8, 5, 0.12⟩ : GlobalParameters) [] []
        (⟨false, 10, TriggerMode.RandomEventsPerHour, 4⟩ : SafetyDumpConfig)
        (by norm_num) (by norm_num) (by norm_num) (by norm_num) (by norm_num) (by norm_num)
        (by norm_num)).2⟩

end MachineCost
